import Mathlib

/-!
Verification of the `ibis_bigquery` backend adapter (`ibis_bigquery/__init__.py`).

The development shallowly embeds the connection / identifier-resolution /
query-execution pipeline of the BigQuery backend:

* Python strings are Lean `String`s; `str.split(".")` is embedded as `splitDot`,
  whose recursion mirrors Python's separator-split semantics.
* The backend object is a structure whose connection attributes are `Option`s:
  `none` models a Python attribute that has never been assigned, so reading it
  raises `AttributeError` — surfaced here as `BQError.notConnected`.
* Fallible methods return `Except BQError`; methods that talk to the network
  run in a trace monad `Tr` which records the externally visible calls
  (auth, client creation, job submission, blocking wait, catalog fetches)
  in order, so ordering and "no network call happened" claims are statable.
* External collaborators (the ibis expression framework, the google-cloud
  client library, `pydata_google_auth`) are kept abstract: they appear as
  uninterpreted function fields of `ExtDeps` and `Client`, universally
  quantified in every theorem.
-/

/-- One chunk of a separator-split character list.  `splitDotAux` embeds
Python's `str.split(".")` on the underlying character list: splitting the
empty string yields `[[]]`, and each `'.'` starts a new chunk. -/
def splitDotAux : List Char → List (List Char)
  | [] => [[]]
  | c :: cs =>
    if c = '.' then [] :: splitDotAux cs
    else
      match splitDotAux cs with
      | [] => [[c]]
      | s :: ss => (c :: s) :: ss

/-- Embedding of Python `name.split(".")`. -/
def splitDot (s : String) : List String :=
  (splitDotAux s.data).map String.mk

/-- A string that contains no `'.'` separator (a plain identifier). -/
def dotFree (s : String) : Prop := '.' ∉ s.data

instance (s : String) : Decidable (dotFree s) := by
  unfold dotFree; infer_instance

theorem splitDotAux_ne_nil (l : List Char) : splitDotAux l ≠ [] := by
  induction l with
  | nil => simp [splitDotAux]
  | cons c cs ih =>
    simp only [splitDotAux]
    split
    · simp
    · cases h : splitDotAux cs with
      | nil => simp
      | cons s ss => simp [h]

theorem splitDotAux_of_not_mem (l : List Char) (h : '.' ∉ l) :
    splitDotAux l = [l] := by
  induction l with
  | nil => rfl
  | cons c cs ih =>
    have hc : c ≠ '.' := fun hc => h (hc ▸ List.mem_cons_self c cs)
    have hcs : '.' ∉ cs := fun hm => h (List.mem_cons_of_mem c hm)
    simp only [splitDotAux]
    rw [if_neg (fun hh => hc hh), ih hcs]

theorem splitDotAux_append_dot (a b : List Char) (h : '.' ∉ a) :
    splitDotAux (a ++ '.' :: b) = a :: splitDotAux b := by
  induction a with
  | nil => simp [splitDotAux]
  | cons c cs ih =>
    have hc : c ≠ '.' := fun hc => h (hc ▸ List.mem_cons_self c cs)
    have hcs : '.' ∉ cs := fun hm => h (List.mem_cons_of_mem c hm)
    simp only [List.cons_append, splitDotAux, List.append_eq]
    rw [if_neg (fun hh => hc hh), ih hcs]

theorem splitDot_of_dotFree (s : String) (h : dotFree s) :
    splitDot s = [s] := by
  unfold splitDot
  rw [splitDotAux_of_not_mem s.data h]
  rfl

theorem splitDot_append_dot (a b : String) (h : dotFree a) :
    splitDot (a ++ "." ++ b) = a :: splitDot b := by
  unfold splitDot
  have hdata : (a ++ "." ++ b).data = a.data ++ '.' :: b.data := by
    rw [String.data_append, String.data_append]
    show a.data ++ ['.'] ++ b.data = a.data ++ '.' :: b.data
    simp
  rw [hdata, splitDotAux_append_dot a.data b.data h]
  rfl

theorem append_dot_ne_empty (a b : String) : a ++ "." ++ b ≠ "" := by
  intro h
  have : (a ++ "." ++ b).data = ("" : String).data := by rw [h]
  rw [String.data_append, String.data_append] at this
  simp at this

/-- Errors raised by the backend layer.  `notConnected` models Python's
`AttributeError` on a never-assigned connection attribute (the spec's
`NotConnected`); `unresolvedDataset` is the `ValueError` "Unable to determine
BigQuery dataset."; `invalidIdentifier` is the `ValueError` "Got too many
components in table name"; `invalidConfiguration` is the `ValueError` for an
unrecognized `auth_cache`; `notFound` and `clientError` surface errors of the
underlying google-cloud client. -/
inductive BQError where
  | unresolvedDataset
  | invalidIdentifier (name : String)
  | invalidConfiguration (auth_cache : String)
  | notConnected (attrName : String)
  | notFound
  | clientError (msg : String)
  deriving DecidableEq, Repr

/-- Outcome of a call into the underlying google-cloud client. -/
inductive ClientErr where
  | notFound
  | other (msg : String)
  deriving DecidableEq, Repr

/-- The three credential-cache behaviours selected by `auth_cache`
(`cache.ReadWriteCredentialsCache`, `cache.WriteOnlyCredentialsCache`,
`cache.NOOP`). -/
inductive CredentialsCache where
  | readWrite (filename : String)
  | writeOnly (filename : String)
  | noop
  deriving DecidableEq, Repr

/-- Opaque credential handle (`google.auth.credentials.Credentials`). -/
abbrev Cred := Nat

/-- Modelled from the spec (§4.2): `bigquery_param` of `ibis_bigquery/client.py`
is not under `src/`; a query parameter is a (name, warehouse-typed value)
pair derived from a user-supplied (name, native value) pair. -/
structure Param where
  name : String
  value : String
  deriving DecidableEq, Repr

/-- The query-job configuration built by `_execute`
(`bq.job.QueryJobConfig` with the two fields the source assigns). -/
structure JobConfig where
  query_parameters : List Param
  use_legacy_sql : Bool
  deriving DecidableEq, Repr

/-- In-memory result table (the dataframe produced by
`query.to_dataframe()`), as opaque rows of cells. -/
abbrev DF := List (List String)

/-- A result schema, viewed through the one operation this layer uses:
`schema.apply_to(df)` coerces a materialized dataframe to the schema's
types (external ibis `sch.Schema`, kept abstract as a function). -/
structure Schema where
  apply_to : DF → DF

/-- Metadata of a remote table as returned by `client.get_table`. -/
structure BQTable where
  table_id : String
  deriving DecidableEq, Repr

/-- A query job that has reached a terminal successful state:
the submitted statement, its configuration, the project it was scoped to,
and its result set. -/
structure CompletedJob where
  stmt : String
  config : JobConfig
  project : String
  df : DF
  deriving DecidableEq, Repr

/-- Modelled from the spec (§3 "Cursor"): `BigQueryCursor` of
`ibis_bigquery/client.py` is not under `src/`; it is a single-use handle
wrapping a completed query job. -/
structure BigQueryCursor where
  query : CompletedJob
  deriving DecidableEq, Repr

/-- Externally visible calls made by the backend, in program order.
`authDefault` is `pydata_google_auth.default`, `clientCreate` is the
`bq.Client(...)` construction, `submitQuery` is `client.query(...)`,
`jobWait` is the blocking `query.result()`, `getTable` / `getDataset` /
`listTables` are catalog fetches, `toDataframe` is result materialization.
`compileAst`, `renderSQL`, `logSQL`, `schemaResolve` and `postProcess` mark
the purely local pipeline stages of `execute` so that step ordering is
statable. -/
inductive Event where
  | authDefault (scopes : List String) (cache : CredentialsCache) (local_webserver : Bool)
  | clientCreate (project : String)
  | compileAst
  | renderSQL (sql : String)
  | logSQL (sql : String)
  | submitQuery (project : String) (stmt : String) (config : JobConfig)
  | jobWait
  | getTable (table_id : String)
  | getDataset (project : String) (dataset : String)
  | listTables (project : String) (dataset : String)
  | schemaResolve
  | toDataframe
  | postProcess
  deriving DecidableEq, Repr

/-- Which events are network (or authentication) calls; the compile / render /
log / schema-resolution / post-processing stages are purely local. -/
def networkEvent : Event → Bool
  | .authDefault _ _ _ => true
  | .clientCreate _ => true
  | .submitQuery _ _ _ => true
  | .jobWait => true
  | .getTable _ => true
  | .getDataset _ _ => true
  | .listTables _ _ => true
  | .toDataframe => true
  | .compileAst => false
  | .renderSQL _ => false
  | .logSQL _ => false
  | .schemaResolve => false
  | .postProcess => false

/-- The underlying google-cloud client handle, abstracted as the responses it
gives to each call the backend makes.  `query_r` is the terminal outcome of
submitting a statement and blocking on `result()`. -/
structure Client where
  query_r : String → Except ClientErr DF
  get_table_r : String → Except ClientErr BQTable
  get_dataset_r : String → String → Except ClientErr Unit
  list_tables_r : String → String → List String

/-- The backend facade.  Each field is a Python instance attribute assigned by
`connect` (on a fresh instance) or `set_database`; `none` models an attribute
that has never been assigned, whose read raises `AttributeError`. -/
structure Backend where
  data_project : Option String := none
  billing_project : Option String := none
  dataset : Option String := none
  partition_column : Option (Option String) := none
  client : Option Client := none

/-- A freshly constructed `Backend()` on which `connect` has never been
called: no connection attribute is assigned. -/
def Backend.unconnected : Backend := {}

/-- Trace-carrying computation: the result (or error) together with the list
of externally visible events, in order.  The event list is kept even when an
error is raised, so "no network call was attempted" is statable on failures. -/
structure Tr (α : Type) where
  res : Except BQError α
  log : List Event

instance : Monad Tr where
  pure a := ⟨.ok a, []⟩
  bind x f :=
    match x with
    | ⟨.error e, t⟩ => ⟨.error e, t⟩
    | ⟨.ok a, t⟩ => ⟨(f a).res, t ++ (f a).log⟩

/-- Record one externally visible event. -/
def Tr.emit (e : Event) : Tr Unit := ⟨.ok (), [e]⟩

/-- Raise an error (no event). -/
def Tr.raise (e : BQError) : Tr α := ⟨.error e, []⟩

/-- Run a pure fallible computation (no event). -/
def Tr.liftE (x : Except BQError α) : Tr α := ⟨x, []⟩

/-- Read a Python instance attribute: reading a never-assigned attribute
raises `AttributeError`, surfaced as `notConnected` with the attribute name. -/
def getattr (o : Option α) (attrName : String) : Except BQError α :=
  match o with
  | some a => .ok a
  | none => .error (.notConnected attrName)

/-- Trace-monad version of `getattr`. -/
def Tr.attr (o : Option α) (attrName : String) : Tr α := Tr.liftE (getattr o attrName)

@[simp] theorem Tr.bind_error (e : BQError) (t : List Event) (f : α → Tr β) :
    (Tr.mk (.error e) t >>= f) = ⟨.error e, t⟩ := rfl

@[simp] theorem Tr.bind_ok (a : α) (t : List Event) (f : α → Tr β) :
    (Tr.mk (.ok a) t >>= f) = ⟨(f a).res, t ++ (f a).log⟩ := rfl

@[simp] theorem Tr.pure_def (a : α) : (pure a : Tr α) = ⟨.ok a, []⟩ := rfl

@[simp] theorem Tr.emit_def (e : Event) : Tr.emit e = ⟨.ok (), [e]⟩ := rfl

@[simp] theorem Tr.raise_def (e : BQError) : (Tr.raise e : Tr α) = ⟨.error e, []⟩ := rfl

@[simp] theorem Tr.liftE_ok (a : α) : (Tr.liftE (.ok a) : Tr α) = ⟨.ok a, []⟩ := rfl

@[simp] theorem Tr.liftE_error (e : BQError) : (Tr.liftE (.error e) : Tr α) = ⟨.error e, []⟩ := rfl

@[simp] theorem getattr_some (a : α) (n : String) : getattr (some a) n = .ok a := rfl

@[simp] theorem getattr_none (n : String) : (getattr none n : Except BQError α) = .error (.notConnected n) := rfl

/-- Map an error of the underlying google-cloud client into the backend's
error type, unchanged in content: `NotFound` stays `notFound`, anything else
stays a client error with the same message. -/
def Tr.client (x : Except ClientErr α) : Tr α :=
  match x with
  | .ok a => ⟨.ok a, []⟩
  | .error .notFound => ⟨.error .notFound, []⟩
  | .error (.other m) => ⟨.error (.clientError m), []⟩

@[simp] theorem Tr.client_ok (a : α) : Tr.client (.ok a) = ⟨.ok a, []⟩ := rfl

@[simp] theorem Tr.client_notFound :
    (Tr.client (.error .notFound) : Tr α) = ⟨.error .notFound, []⟩ := rfl

@[simp] theorem Tr.client_other (m : String) :
    (Tr.client (.error (.other m)) : Tr α) = ⟨.error (.clientError m), []⟩ := rfl

/-- Opaque handle of an ibis expression tree. -/
abbrev Expr := Nat

/-- The `limit` argument of `execute`: the `"default"` sentinel, `None`,
or an integer row limit. -/
inductive RowLimit where
  | defaultLimit
  | noLimit
  | atMost (n : Nat)
  deriving DecidableEq, Repr

/-- The compiled query AST produced by `compiler.to_ast_ensure_limit`,
viewed through the three things `execute` reads off it: the rendered SQL
(`query_ast.compile()`), the result schema (`ast_schema`), and the optional
result post-processor (`query_ast.dml.result_handler`). -/
structure QueryAST where
  sql : String
  schema : Schema
  result_handler : Option (DF → DF)

/-- A table expression handed back to the caller of `table`. -/
structure TableExpr where
  name : String
  schema : Schema

/-- External collaborators, kept abstract: the ibis compiler and base-backend
helpers (`to_ast_ensure_limit`, `sch.infer`, `_filter_with_like`), the
repository's `rename_partitioned_column` (in `ibis_bigquery/client.py`, not
under `src/`; its semantics decide no claim here, so it stays uninterpreted),
`pydata_google_auth.default`, and the `bq.Client` constructor.  Every theorem
quantifies over this structure. -/
structure ExtDeps where
  to_ast_ensure_limit : Expr → RowLimit → List (String × String) → QueryAST
  sch_infer : BQTable → Schema
  rename_partitioned_column : TableExpr → BQTable → Option String → TableExpr
  filter_with_like : List String → Option String → List String
  auth_default : List String → CredentialsCache → Bool → Cred × String
  mk_client : String → Cred → Option String → Client

def SCOPES : List String := ["https://www.googleapis.com/auth/bigquery"]

def EXTERNAL_DATA_SCOPES : List String :=
  ["https://www.googleapis.com/auth/bigquery",
   "https://www.googleapis.com/auth/cloud-platform",
   "https://www.googleapis.com/auth/drive"]

/-- Modelled from the spec (§4.1): `parse_project_and_dataset` of
`ibis_bigquery/client.py` is not under `src/`.  Per the spec, the dataset
argument "is itself split on the single separator into (project, dataset)
using the billing project as project-fallback"; the function returns the
`(data_project, billing_project, dataset)` triple destructured by `connect`
and `Backend._parse_project_and_dataset`. -/
def parse_project_and_dataset (project : String) (dataset : String) :
    String × String × String :=
  match splitDot dataset with
  | [p, d] => (p, project, d)
  | _ => (project, project, dataset)

/-- Modelled from the spec (§4.2): `bigquery_param` of
`ibis_bigquery/client.py` is not under `src/`; it turns a user-supplied
(name, native value) pair into a warehouse query parameter. -/
def bigquery_param (name value : String) : Param := ⟨name, value⟩

/-- `Backend._parse_project_and_dataset` (source lines 159-166).  Attribute
reads happen in the source's order: `self.dataset` in the guard (only when
the argument is falsy), then `self.billing_project`, then `self.data_project`
(only when the argument is falsy). -/
def Backend._parse_project_and_dataset (b : Backend) (dataset : String) :
    Except BQError (String × String) := do
  if dataset = "" then
    let selfDataset ← getattr b.dataset "dataset"
    if selfDataset = "" then
      throw .unresolvedDataset
    let billing ← getattr b.billing_project "billing_project"
    let dataProject ← getattr b.data_project "data_project"
    let pbd := parse_project_and_dataset billing (dataProject ++ "." ++ selfDataset)
    return (pbd.1, pbd.2.2)
  else
    let billing ← getattr b.billing_project "billing_project"
    let pbd := parse_project_and_dataset billing dataset
    return (pbd.1, pbd.2.2)

/-- `Backend._fully_qualified_name` (source lines 182-191): resolve the
default project/dataset first, then dispatch on the number of dot-separated
components of the raw name. -/
def Backend._fully_qualified_name (b : Backend) (name database : String) :
    Except BQError String := do
  let pd ← b._parse_project_and_dataset database
  let parts := splitDot name
  if parts.length = 3 then
    return name
  else if parts.length = 2 then
    return pd.1 ++ "." ++ name
  else if parts.length = 1 then
    return pd.1 ++ "." ++ pd.2 ++ "." ++ name
  else
    throw (.invalidIdentifier name)

/-- `Backend._execute` (source lines 213-221): build a job configuration with
legacy SQL disabled, submit scoped to the billing project, block on
`query.result()`, and wrap the completed job in a cursor.  The `results`
argument is accepted and ignored, as in the source. -/
def Backend._execute (b : Backend) (stmt : String) (_results : Bool)
    (query_parameters : Option (List Param)) : Tr BigQueryCursor := do
  let job_config : JobConfig := ⟨query_parameters.getD [], false⟩
  let client ← Tr.attr b.client "client"
  let billing ← Tr.attr b.billing_project "billing_project"
  Tr.emit (.submitQuery billing stmt job_config)
  Tr.emit .jobWait
  let df ← Tr.client (client.query_r stmt)
  pure ⟨⟨stmt, job_config, billing, df⟩⟩

/-- `Backend.raw_sql` (source lines 223-227). -/
def Backend.raw_sql (b : Backend) (query : String) (results : Bool)
    (params : List (String × String)) : Tr BigQueryCursor :=
  b._execute query results (some (params.map fun pv => bigquery_param pv.1 pv.2))

/-- `Backend.fetch_from_cursor` (source lines 324-326): materialize the full
result set and apply the schema's types. -/
def Backend.fetch_from_cursor (_b : Backend) (cursor : BigQueryCursor)
    (schema : Schema) : Tr DF := do
  Tr.emit .toDataframe
  pure (schema.apply_to cursor.query.df)

/-- `Backend.get_schema` (source lines 328-332). -/
def Backend.get_schema (b : Backend) (ext : ExtDeps) (name database : String) :
    Tr Schema := do
  let table_id ← Tr.liftE (b._fully_qualified_name name database)
  let client ← Tr.attr b.client "client"
  Tr.emit (.getTable table_id)
  let bq_table ← Tr.client (client.get_table_r table_id)
  pure (ext.sch_infer bq_table)

/-- `Backend.list_tables` (source lines 341-345). -/
def Backend.list_tables (b : Backend) (ext : ExtDeps) (like : Option String)
    (database : String) : Tr (List String) := do
  let pd ← Tr.liftE (b._parse_project_and_dataset database)
  let client ← Tr.attr b.client "client"
  Tr.emit (.listTables pd.1 pd.2)
  pure (ext.filter_with_like (client.list_tables_r pd.1 pd.2) like)

/-- Modelled from the spec (§6, inbound base-backend contract): the external
framework's `table` method, called as `super().table(...)` by the source,
resolves the fully-qualified name through the backend and builds a table
expression from the backend-resolved schema. -/
def Backend.super_table (b : Backend) (ext : ExtDeps) (name database : String) :
    Tr TableExpr := do
  let qualified_name ← Tr.liftE (b._fully_qualified_name name database)
  let schema ← b.get_schema ext qualified_name ""
  pure ⟨qualified_name, schema⟩

/-- `Backend.table` (source lines 176-180). -/
def Backend.table (b : Backend) (ext : ExtDeps) (name database : String) :
    Tr TableExpr := do
  let t ← b.super_table ext name database
  let table_id ← Tr.liftE (b._fully_qualified_name name database)
  let client ← Tr.attr b.client "client"
  Tr.emit (.getTable table_id)
  let bq_table ← Tr.client (client.get_table_r table_id)
  let pc ← Tr.attr b.partition_column "partition_column"
  pure (ext.rename_partitioned_column t bq_table pc)

/-- `Backend.execute` (source lines 242-277): compile the expression to an
AST honouring the row limit, render SQL, log it, run the query executor,
resolve the result schema, materialize, and apply the declared result
post-processor when present. -/
def Backend.execute (b : Backend) (ext : ExtDeps) (expr : Expr)
    (params : List (String × String)) (limit : RowLimit) : Tr DF := do
  Tr.emit .compileAst
  let query_ast := ext.to_ast_ensure_limit expr limit params
  Tr.emit (.renderSQL query_ast.sql)
  let sql := query_ast.sql
  Tr.emit (.logSQL sql)
  let cursor ← b.raw_sql sql false params
  Tr.emit .schemaResolve
  let schema := query_ast.schema
  let result ← b.fetch_from_cursor cursor schema
  match query_ast.result_handler with
  | some handler => do
      Tr.emit .postProcess
      pure (handler result)
  | none => pure result

/-- `Backend.exists_database` (source lines 279-300): deprecated existence
check that translates `NotFound` into `false` and any other outcome of the
catalog fetch into `true` or a propagated error. -/
def Backend.exists_database (b : Backend) (name : String) : Tr Bool := do
  let pd ← Tr.liftE (b._parse_project_and_dataset name)
  let client ← Tr.attr b.client "client"
  Tr.emit (.getDataset pd.1 pd.2)
  match client.get_dataset_r pd.1 pd.2 with
  | .error .notFound => pure false
  | .error (.other m) => Tr.raise (.clientError m)
  | .ok _ => pure true

/-- `Backend.exists_table` (source lines 302-322): deprecated existence check
over `client.get_table`, translating only `NotFound` into `false`. -/
def Backend.exists_table (b : Backend) (name database : String) : Tr Bool := do
  let table_id ← Tr.liftE (b._fully_qualified_name name database)
  let client ← Tr.attr b.client "client"
  Tr.emit (.getTable table_id)
  match client.get_table_r table_id with
  | .error .notFound => pure false
  | .error (.other m) => Tr.raise (.clientError m)
  | .ok _ => pure true

/-- `Backend.set_database` (source lines 347-348): re-derive
`data_project` and `dataset` from the given name; no other attribute is
assigned. -/
def Backend.set_database (b : Backend) (name : String) : Except BQError Backend := do
  let pd ← b._parse_project_and_dataset name
  return { b with data_project := some pd.1, dataset := some pd.2 }

/-- `Backend.connect` (source lines 51-157): when no credentials are given,
select scopes and a credentials cache (rejecting an unrecognized
`auth_cache` before the authentication call), authenticate, then build a
fresh backend whose attributes come from `parse_project_and_dataset` and a
newly created client scoped to the billing project.  `self` is untouched. -/
def Backend.connect (_self : Backend) (ext : ExtDeps) (project_id : String)
    (dataset_id : String) (credentials : Option Cred)
    (application_name : Option String) (auth_local_webserver : Bool)
    (auth_external_data : Bool) (auth_cache : String)
    (partition_column : Option String) : Tr Backend := do
  let default_project_id := ""
  let cd ←
    match credentials with
    | none => do
        let scopes := if auth_external_data then EXTERNAL_DATA_SCOPES else SCOPES
        let credentials_cache ←
          if auth_cache = "default" then
            pure (CredentialsCache.readWrite "ibis.json")
          else if auth_cache = "reauth" then
            pure (CredentialsCache.writeOnly "ibis.json")
          else if auth_cache = "none" then
            pure CredentialsCache.noop
          else
            Tr.raise (.invalidConfiguration auth_cache)
        Tr.emit (.authDefault scopes credentials_cache auth_local_webserver)
        pure (ext.auth_default scopes credentials_cache auth_local_webserver)
    | some c => pure (c, default_project_id)
  let project_id := if project_id = "" then cd.2 else project_id
  let pbd := parse_project_and_dataset project_id dataset_id
  Tr.emit (.clientCreate pbd.2.1)
  let client := ext.mk_client pbd.2.1 cd.1 application_name
  pure { data_project := some pbd.1, billing_project := some pbd.2.1,
         dataset := some pbd.2.2, partition_column := some partition_column,
         client := some client }

/-- A concrete client used to instantiate witness statements: the query
succeeds with a one-cell result, and catalog lookups report `NotFound`. -/
def demoClient : Client where
  query_r := fun _ => .ok [["1"]]
  get_table_r := fun _ => .error .notFound
  get_dataset_r := fun _ _ => .error .notFound
  list_tables_r := fun _ _ => []

/-- A concrete connected backend: billing project `bp`, data project `p`,
default dataset `d`. -/
def demoBackend : Backend where
  data_project := some "p"
  billing_project := some "bp"
  dataset := some "d"
  partition_column := some (some "PARTITIONTIME")
  client := some demoClient

/-- A concrete connected backend whose default dataset is empty
(connected with `dataset_id=""`). -/
def demoBackendNoDataset : Backend where
  data_project := some "p"
  billing_project := some "p"
  dataset := some ""
  partition_column := some (some "PARTITIONTIME")
  client := some demoClient

/-- A backend agreeing with `demoBackend` on the three resolution-relevant
fields but differing elsewhere (no partition column, no client). -/
def demoBackendAlt : Backend :=
  { demoBackend with partition_column := none, client := none }

/-- Concrete external collaborators used to instantiate witness statements. -/
def demoExt : ExtDeps where
  to_ast_ensure_limit := fun _ _ _ => ⟨"SELECT 1", ⟨fun df => df⟩, none⟩
  sch_infer := fun _ => ⟨fun df => df⟩
  rename_partitioned_column := fun t _ _ => t
  filter_with_like := fun l _ => l
  auth_default := fun _ _ _ => (0, "authproj")
  mk_client := fun _ _ _ => demoClient

@[simp] theorem except_bind_ok {ε α β : Type} (a : α) (f : α → Except ε β) :
    (Except.ok a >>= f) = f a := rfl

@[simp] theorem except_bind_error {ε α β : Type} (e : ε) (f : α → Except ε β) :
    ((Except.error e : Except ε α) >>= f) = Except.error e := rfl

@[simp] theorem except_pure_def {ε α : Type} (a : α) :
    (pure a : Except ε α) = .ok a := rfl

@[simp] theorem except_throw_def {ε α : Type} (e : ε) :
    (throw e : Except ε α) = .error e := rfl

/-- Default-path resolution: with dot-free connected defaults and a nonempty
default dataset, `_parse_project_and_dataset` with no explicit database
returns (data project, default dataset). -/
theorem parse_pd_default (b : Backend) (bp dp ds : String)
    (hbp : b.billing_project = some bp) (hdp : b.data_project = some dp)
    (hds : b.dataset = some ds) (hne : ds ≠ "")
    (hfree : dotFree dp) (hdsfree : dotFree ds) :
    b._parse_project_and_dataset "" = .ok (dp, ds) := by
  simp only [Backend._parse_project_and_dataset, hbp, hdp, hds, getattr_some,
    if_pos rfl, except_bind_ok]
  rw [if_neg hne]
  simp [parse_project_and_dataset, splitDot_append_dot dp ds hfree,
    splitDot_of_dotFree ds hdsfree]

/-- Explicit-path resolution shape. -/
theorem parse_pd_explicit (b : Backend) (bp database : String)
    (hbp : b.billing_project = some bp) (hdb : database ≠ "") :
    b._parse_project_and_dataset database =
      .ok ((parse_project_and_dataset bp database).1,
           (parse_project_and_dataset bp database).2.2) := by
  simp [Backend._parse_project_and_dataset, hdb, hbp]

/-- C1: for every raw table name with 1, 2 or 3 dot-separated components and
fixed connection defaults (default project `dp`, default dataset `ds`),
`_fully_qualified_name` returns the fully-qualified identifier — a 3-part
name verbatim, a 2-part name prefixed with the default project, a 1-part
name prefixed with default project and dataset — and a name with 4 or more
components fails with the invalid-identifier error. -/
theorem fully_qualified_name_resolves_by_arity
    (b : Backend) (bp dp ds name : String)
    (hbp : b.billing_project = some bp) (hdp : b.data_project = some dp)
    (hds : b.dataset = some ds) (hne : ds ≠ "")
    (hfree : dotFree dp) (hdsfree : dotFree ds) :
    ((splitDot name).length = 3 →
        b._fully_qualified_name name "" = .ok name) ∧
    ((splitDot name).length = 2 →
        b._fully_qualified_name name "" = .ok (dp ++ "." ++ name)) ∧
    ((splitDot name).length = 1 →
        b._fully_qualified_name name "" = .ok (dp ++ "." ++ ds ++ "." ++ name)) ∧
    (4 ≤ (splitDot name).length →
        b._fully_qualified_name name "" = .error (.invalidIdentifier name)) := by
  have hparse := parse_pd_default b bp dp ds hbp hdp hds hne hfree hdsfree
  refine ⟨?_, ?_, ?_, ?_⟩ <;> intro hlen
  · simp [Backend._fully_qualified_name, hparse, hlen]
  · simp [Backend._fully_qualified_name, hparse, hlen]
  · simp [Backend._fully_qualified_name, hparse, hlen]
  · have h3 : ¬ (splitDot name).length = 3 := by omega
    have h2 : ¬ (splitDot name).length = 2 := by omega
    have h1 : ¬ (splitDot name).length = 1 := by omega
    simp [Backend._fully_qualified_name, hparse, h1, h2, h3]

theorem fully_qualified_name_resolves_by_arity_witness :
    ((splitDot "d2.t.u").length = 3 →
        demoBackend._fully_qualified_name "d2.t.u" "" = .ok "d2.t.u") ∧
    ((splitDot "d2.t.u").length = 2 →
        demoBackend._fully_qualified_name "d2.t.u" "" = .ok ("p" ++ "." ++ "d2.t.u")) ∧
    ((splitDot "d2.t.u").length = 1 →
        demoBackend._fully_qualified_name "d2.t.u" "" =
          .ok ("p" ++ "." ++ "d" ++ "." ++ "d2.t.u")) ∧
    (4 ≤ (splitDot "d2.t.u").length →
        demoBackend._fully_qualified_name "d2.t.u" "" =
          .error (.invalidIdentifier "d2.t.u")) :=
  fully_qualified_name_resolves_by_arity demoBackend "bp" "p" "d" "d2.t.u"
    rfl rfl rfl (by decide) (by decide) (by decide)

/-- C2: with no explicit database and an empty connection-level default
dataset, resolution fails with the unresolved-dataset error; an explicit
database is split on its single separator into (project, dataset), with the
billing project as the project fallback when it has no separator. -/
theorem parse_project_and_dataset_default_resolution
    (b : Backend) (bp : String) (hbp : b.billing_project = some bp) :
    (b.dataset = some "" →
        b._parse_project_and_dataset "" = .error .unresolvedDataset) ∧
    (∀ p d, dotFree p → dotFree d →
        b._parse_project_and_dataset (p ++ "." ++ d) = .ok (p, d)) ∧
    (∀ db, db ≠ "" → dotFree db →
        b._parse_project_and_dataset db = .ok (bp, db)) := by
  refine ⟨?_, ?_, ?_⟩
  · intro hds
    simp [Backend._parse_project_and_dataset, hds]
  · intro p d hp hd
    rw [parse_pd_explicit b bp (p ++ "." ++ d) hbp (append_dot_ne_empty p d)]
    simp [parse_project_and_dataset, splitDot_append_dot p d hp,
      splitDot_of_dotFree d hd]
  · intro db hdb hfree
    rw [parse_pd_explicit b bp db hbp hdb]
    simp [parse_project_and_dataset, splitDot_of_dotFree db hfree]

theorem parse_project_and_dataset_default_resolution_witness :
    (demoBackendNoDataset.dataset = some "" →
        demoBackendNoDataset._parse_project_and_dataset "" =
          .error .unresolvedDataset) ∧
    (∀ p d, dotFree p → dotFree d →
        demoBackendNoDataset._parse_project_and_dataset (p ++ "." ++ d) = .ok (p, d)) ∧
    (∀ db, db ≠ "" → dotFree db →
        demoBackendNoDataset._parse_project_and_dataset db = .ok ("p", db)) :=
  parse_project_and_dataset_default_resolution demoBackendNoDataset "p" rfl

/-- C3: identifier resolution is deterministic and pure — its outcome depends
only on the raw name, the explicit database and the three connection
defaults (billing project, data project, default dataset); two backends
agreeing on those fields resolve every name identically (same result or
identical failure).  In this embedding the resolver is a state-free,
trace-free function, so it performs no network call and mutates nothing. -/
theorem fully_qualified_name_deterministic_pure
    (b1 b2 : Backend) (name database : String)
    (h1 : b1.billing_project = b2.billing_project)
    (h2 : b1.data_project = b2.data_project)
    (h3 : b1.dataset = b2.dataset) :
    b1._fully_qualified_name name database =
      b2._fully_qualified_name name database := by
  unfold Backend._fully_qualified_name Backend._parse_project_and_dataset
  rw [h1, h2, h3]

theorem fully_qualified_name_deterministic_pure_witness :
    demoBackend._fully_qualified_name "orders" "d9" =
      demoBackendAlt._fully_qualified_name "orders" "d9" :=
  fully_qualified_name_deterministic_pure demoBackend demoBackendAlt
    "orders" "d9" rfl rfl rfl

/-- C10: `_fully_qualified_name` resolves the default project and dataset
before inspecting the raw name, so even a fully-qualified 3-part name fails
with the unresolved-dataset error when no explicit database is given and the
connection's default dataset is empty — it is not returned verbatim. -/
theorem three_part_name_still_requires_default_dataset
    (b : Backend) (name : String) (hds : b.dataset = some "")
    (hlen : (splitDot name).length = 3) :
    b._fully_qualified_name name "" = .error .unresolvedDataset := by
  simp [Backend._fully_qualified_name, Backend._parse_project_and_dataset, hds]

theorem three_part_name_still_requires_default_dataset_witness :
    (splitDot "p2.d2.orders").length = 3 ∧
    demoBackendNoDataset._fully_qualified_name "p2.d2.orders" "" =
      .error .unresolvedDataset :=
  ⟨by decide,
   three_part_name_still_requires_default_dataset demoBackendNoDataset
     "p2.d2.orders" rfl (by decide)⟩

/-- C4: for every statement and parameter list, `_execute` builds a job
configuration with the legacy SQL dialect disabled unconditionally, submits
the job scoped to the connection's billing project, blocks on the job
(`jobWait` follows the submission before anything is returned), and on
success returns a single-use cursor wrapping the completed job. -/
theorem query_executor_config_and_blocking
    (b : Backend) (c : Client) (bp stmt : String) (results : Bool)
    (qp : Option (List Param))
    (hc : b.client = some c) (hbp : b.billing_project = some bp) :
    (b._execute stmt results qp).log =
      [.submitQuery bp stmt ⟨qp.getD [], false⟩, .jobWait] ∧
    (∀ df, c.query_r stmt = .ok df →
        (b._execute stmt results qp).res =
          .ok ⟨⟨stmt, ⟨qp.getD [], false⟩, bp, df⟩⟩) := by
  refine ⟨?_, ?_⟩
  · cases hq : c.query_r stmt with
    | ok df => simp [Backend._execute, Tr.attr, hc, hbp, hq]
    | error e => cases e <;> simp [Backend._execute, Tr.attr, hc, hbp, hq]
  · intro df hq
    simp [Backend._execute, Tr.attr, hc, hbp, hq]

theorem query_executor_config_and_blocking_witness :
    (demoBackend._execute "SELECT 1" true none).log =
      [.submitQuery "bp" "SELECT 1" ⟨(none : Option (List Param)).getD [], false⟩,
       .jobWait] ∧
    (∀ df, demoClient.query_r "SELECT 1" = .ok df →
        (demoBackend._execute "SELECT 1" true none).res =
          .ok ⟨⟨"SELECT 1", ⟨(none : Option (List Param)).getD [], false⟩, "bp", df⟩⟩) :=
  query_executor_config_and_blocking demoBackend demoClient "bp" "SELECT 1"
    true none rfl rfl

/-- C5: `set_database` re-derives only `data_project` and `dataset` from the
given name; `billing_project`, `partition_column` and the client handle are
unchanged.  (All other operations are embedded as functions that return no
modified backend: as in the source, no method other than `set_database`
assigns a connection attribute on an existing instance — `connect` only
populates a freshly constructed one.) -/
theorem set_database_frame (b b' : Backend) (name : String)
    (h : b.set_database name = .ok b') :
    b'.billing_project = b.billing_project ∧
    b'.partition_column = b.partition_column ∧
    b'.client = b.client ∧
    ∃ p d, b._parse_project_and_dataset name = .ok (p, d) ∧
      b'.data_project = some p ∧ b'.dataset = some d := by
  unfold Backend.set_database at h
  cases hp : b._parse_project_and_dataset name with
  | error e => rw [hp] at h; simp at h
  | ok pd =>
    rw [hp] at h
    simp only [except_bind_ok, except_pure_def, Except.ok.injEq] at h
    subst h
    exact ⟨rfl, rfl, rfl, pd.1, pd.2, rfl, rfl, rfl⟩

/-- The backend produced by `demoBackend.set_database "d2"`. -/
def demoBackendAfterSet : Backend :=
  { demoBackend with data_project := some "bp", dataset := some "d2" }

theorem set_database_frame_witness :
    demoBackendAfterSet.billing_project = demoBackend.billing_project ∧
    demoBackendAfterSet.partition_column = demoBackend.partition_column ∧
    demoBackendAfterSet.client = demoBackend.client ∧
    ∃ p d, demoBackend._parse_project_and_dataset "d2" = .ok (p, d) ∧
      demoBackendAfterSet.data_project = some p ∧
      demoBackendAfterSet.dataset = some d :=
  set_database_frame demoBackend demoBackendAfterSet "d2" rfl

/-- C6 counterexample: a call to `connect` with `auth_cache = "bogus"` but
explicitly supplied credentials does not fail at all — the `auth_cache`
validation is skipped whenever credentials are given, so the claim's
"for every call to connect" quantification is false. -/
theorem connect_auth_cache_counterexample :
    (Backend.unconnected.connect demoExt "p" "d" (some 0) none true false
        "bogus" (some "PARTITIONTIME")).res.isOk = true := by
  rfl

/-- C6 (amended): for every call to `connect` with no explicit credentials
and an `auth_cache` value other than `"default"`, `"reauth"` or `"none"`,
`connect` fails with the invalid-configuration error and its event trace is
empty — no network or authentication call is attempted. -/
theorem connect_invalid_auth_cache_no_credentials
    (self : Backend) (ext : ExtDeps) (project_id dataset_id : String)
    (application_name : Option String) (auth_local_webserver : Bool)
    (auth_external_data : Bool) (auth_cache : String) (pc : Option String)
    (h1 : auth_cache ≠ "default") (h2 : auth_cache ≠ "reauth")
    (h3 : auth_cache ≠ "none") :
    self.connect ext project_id dataset_id none application_name
        auth_local_webserver auth_external_data auth_cache pc =
      ⟨.error (.invalidConfiguration auth_cache), []⟩ := by
  simp [Backend.connect, h1, h2, h3, Tr.raise]

theorem connect_invalid_auth_cache_no_credentials_witness :
    Backend.unconnected.connect demoExt "p" "d" none none true false
        "bogus" (some "PARTITIONTIME") =
      ⟨.error (.invalidConfiguration "bogus"), []⟩ :=
  connect_invalid_auth_cache_no_credentials Backend.unconnected demoExt
    "p" "d" none true false "bogus" (some "PARTITIONTIME")
    (by decide) (by decide) (by decide)

/-- C7: `execute` runs its pipeline in order — compile the expression to an
AST honouring the row limit, render SQL, log it, submit the job and block
(query executor), resolve the result schema, materialize the result with
that schema, and, exactly when the compiled statement declares a result
post-processor, apply it to the materialized result before returning. -/
theorem execute_pipeline_order
    (b : Backend) (ext : ExtDeps) (c : Client) (bp : String) (expr : Expr)
    (params : List (String × String)) (limit : RowLimit) (df : DF)
    (hc : b.client = some c) (hbp : b.billing_project = some bp)
    (hq : c.query_r (ext.to_ast_ensure_limit expr limit params).sql = .ok df) :
    (b.execute ext expr params limit).log =
      [.compileAst,
       .renderSQL (ext.to_ast_ensure_limit expr limit params).sql,
       .logSQL (ext.to_ast_ensure_limit expr limit params).sql,
       .submitQuery bp (ext.to_ast_ensure_limit expr limit params).sql
         ⟨params.map fun pv => bigquery_param pv.1 pv.2, false⟩,
       .jobWait, .schemaResolve, .toDataframe] ++
      (match (ext.to_ast_ensure_limit expr limit params).result_handler with
       | some _ => [.postProcess]
       | none => []) ∧
    (b.execute ext expr params limit).res =
      .ok (match (ext.to_ast_ensure_limit expr limit params).result_handler with
       | some handler =>
           handler ((ext.to_ast_ensure_limit expr limit params).schema.apply_to df)
       | none => (ext.to_ast_ensure_limit expr limit params).schema.apply_to df) := by
  cases hrh : (ext.to_ast_ensure_limit expr limit params).result_handler with
  | some handler =>
    constructor <;>
      simp [Backend.execute, Backend.raw_sql, Backend._execute,
        Backend.fetch_from_cursor, Tr.attr, hc, hbp, hq, hrh]
  | none =>
    constructor <;>
      simp [Backend.execute, Backend.raw_sql, Backend._execute,
        Backend.fetch_from_cursor, Tr.attr, hc, hbp, hq, hrh]

theorem execute_pipeline_order_witness :
    (demoBackend.execute demoExt 0 [] RowLimit.defaultLimit).log =
      [.compileAst,
       .renderSQL (demoExt.to_ast_ensure_limit 0 RowLimit.defaultLimit []).sql,
       .logSQL (demoExt.to_ast_ensure_limit 0 RowLimit.defaultLimit []).sql,
       .submitQuery "bp" (demoExt.to_ast_ensure_limit 0 RowLimit.defaultLimit []).sql
         ⟨([] : List (String × String)).map fun pv => bigquery_param pv.1 pv.2, false⟩,
       .jobWait, .schemaResolve, .toDataframe] ++
      (match (demoExt.to_ast_ensure_limit 0 RowLimit.defaultLimit []).result_handler with
       | some _ => [.postProcess]
       | none => []) ∧
    (demoBackend.execute demoExt 0 [] RowLimit.defaultLimit).res =
      .ok (match (demoExt.to_ast_ensure_limit 0 RowLimit.defaultLimit []).result_handler with
       | some handler =>
           handler ((demoExt.to_ast_ensure_limit 0 RowLimit.defaultLimit []).schema.apply_to [["1"]])
       | none => (demoExt.to_ast_ensure_limit 0 RowLimit.defaultLimit []).schema.apply_to [["1"]]) :=
  execute_pipeline_order demoBackend demoExt demoClient "bp" 0 []
    RowLimit.defaultLimit [["1"]] rfl rfl rfl

/-- On a never-connected backend every resolution attempt fails at the first
attribute read: `dataset` when no explicit database is given,
`billing_project` otherwise. -/
theorem unconnected_parse (db : String) :
    Backend.unconnected._parse_project_and_dataset db =
      .error (.notConnected (if db = "" then "dataset" else "billing_project")) := by
  by_cases hdb : db = "" <;>
    simp [Backend._parse_project_and_dataset, Backend.unconnected, hdb]

theorem unconnected_fqn (name db : String) :
    Backend.unconnected._fully_qualified_name name db =
      .error (.notConnected (if db = "" then "dataset" else "billing_project")) := by
  simp [Backend._fully_qualified_name, unconnected_parse]

/-- C8: every data-accessing operation (`table`, `execute`, `list_tables`,
`get_schema`, `raw_sql`) invoked on a backend in the unconnected state fails
with the not-connected error (the read of a never-assigned connection
attribute) and its event trace contains no network call. -/
theorem unconnected_operations_fail (ext : ExtDeps) (expr : Expr)
    (params : List (String × String)) (limit : RowLimit)
    (name database q : String) (like : Option String) (results : Bool) :
    ((∃ a, (Backend.unconnected.execute ext expr params limit).res =
        .error (.notConnected a)) ∧
      (Backend.unconnected.execute ext expr params limit).log.filter
        networkEvent = []) ∧
    ((∃ a, (Backend.unconnected.table ext name database).res =
        .error (.notConnected a)) ∧
      (Backend.unconnected.table ext name database).log.filter
        networkEvent = []) ∧
    ((∃ a, (Backend.unconnected.list_tables ext like database).res =
        .error (.notConnected a)) ∧
      (Backend.unconnected.list_tables ext like database).log.filter
        networkEvent = []) ∧
    ((∃ a, (Backend.unconnected.get_schema ext name database).res =
        .error (.notConnected a)) ∧
      (Backend.unconnected.get_schema ext name database).log.filter
        networkEvent = []) ∧
    ((∃ a, (Backend.unconnected.raw_sql q results params).res =
        .error (.notConnected a)) ∧
      (Backend.unconnected.raw_sql q results params).log.filter
        networkEvent = []) := by
  refine ⟨⟨⟨"client", ?_⟩, ?_⟩,
         ⟨⟨if database = "" then "dataset" else "billing_project", ?_⟩, ?_⟩,
         ⟨⟨if database = "" then "dataset" else "billing_project", ?_⟩, ?_⟩,
         ⟨⟨if database = "" then "dataset" else "billing_project", ?_⟩, ?_⟩,
         ⟨⟨"client", ?_⟩, ?_⟩⟩
  · simp [Backend.execute, Backend.raw_sql, Backend._execute,
      Backend.unconnected, Tr.attr]
  · simp [Backend.execute, Backend.raw_sql, Backend._execute,
      Backend.unconnected, Tr.attr, networkEvent]
  · simp [Backend.table, Backend.super_table, unconnected_fqn]
  · simp [Backend.table, Backend.super_table, unconnected_fqn]
  · simp [Backend.list_tables, unconnected_parse]
  · simp [Backend.list_tables, unconnected_parse]
  · simp [Backend.get_schema, unconnected_fqn]
  · simp [Backend.get_schema, unconnected_fqn]
  · simp [Backend.raw_sql, Backend._execute, Backend.unconnected, Tr.attr]
  · simp [Backend.raw_sql, Backend._execute, Backend.unconnected, Tr.attr]

/-- C9: errors surface to the caller, with exactly one exception pattern:
the deprecated existence checks `exists_database` and `exists_table`
translate a `NotFound` of the underlying client into `false` (and a
successful lookup into `true`), while every other client error inside them
propagates unchanged; by contrast `get_schema`, over the same client call,
propagates `NotFound` as an error rather than swallowing it, and resolution
errors propagate out of the existence checks unchanged as well. -/
theorem exists_checks_swallow_only_notfound
    (b : Backend) (c : Client) (ext : ExtDeps) (dbname name database : String)
    (hc : b.client = some c) :
    (∀ p d, b._parse_project_and_dataset dbname = .ok (p, d) →
      (c.get_dataset_r p d = .error .notFound →
          (b.exists_database dbname).res = .ok false) ∧
      (∀ u, c.get_dataset_r p d = .ok u →
          (b.exists_database dbname).res = .ok true) ∧
      (∀ m, c.get_dataset_r p d = .error (.other m) →
          (b.exists_database dbname).res = .error (.clientError m))) ∧
    (∀ e, b._parse_project_and_dataset dbname = .error e →
        (b.exists_database dbname).res = .error e) ∧
    (∀ tid, b._fully_qualified_name name database = .ok tid →
      (c.get_table_r tid = .error .notFound →
          (b.exists_table name database).res = .ok false) ∧
      (∀ t, c.get_table_r tid = .ok t →
          (b.exists_table name database).res = .ok true) ∧
      (∀ m, c.get_table_r tid = .error (.other m) →
          (b.exists_table name database).res = .error (.clientError m)) ∧
      (c.get_table_r tid = .error .notFound →
          (b.get_schema ext name database).res = .error .notFound) ∧
      (∀ m, c.get_table_r tid = .error (.other m) →
          (b.get_schema ext name database).res = .error (.clientError m))) := by
  refine ⟨?_, ?_, ?_⟩
  · intro p d hp
    refine ⟨?_, ?_, ?_⟩
    · intro hg
      simp [Backend.exists_database, Tr.attr, hc, hp, hg]
    · intro u hg
      simp [Backend.exists_database, Tr.attr, hc, hp, hg]
    · intro m hg
      simp [Backend.exists_database, Tr.attr, hc, hp, hg, Tr.raise]
  · intro e hp
    simp [Backend.exists_database, hp]
  · intro tid ht
    refine ⟨?_, ?_, ?_, ?_, ?_⟩
    · intro hg
      simp [Backend.exists_table, Tr.attr, hc, ht, hg]
    · intro t hg
      simp [Backend.exists_table, Tr.attr, hc, ht, hg]
    · intro m hg
      simp [Backend.exists_table, Tr.attr, hc, ht, hg, Tr.raise]
    · intro hg
      simp [Backend.get_schema, Tr.attr, hc, ht, hg]
    · intro m hg
      simp [Backend.get_schema, Tr.attr, hc, ht, hg]

theorem exists_checks_swallow_only_notfound_witness :
    (∀ p d, demoBackend._parse_project_and_dataset "d9" = .ok (p, d) →
      (demoClient.get_dataset_r p d = .error .notFound →
          (demoBackend.exists_database "d9").res = .ok false) ∧
      (∀ u, demoClient.get_dataset_r p d = .ok u →
          (demoBackend.exists_database "d9").res = .ok true) ∧
      (∀ m, demoClient.get_dataset_r p d = .error (.other m) →
          (demoBackend.exists_database "d9").res = .error (.clientError m))) ∧
    (∀ e, demoBackend._parse_project_and_dataset "d9" = .error e →
        (demoBackend.exists_database "d9").res = .error e) ∧
    (∀ tid, demoBackend._fully_qualified_name "t" "d9" = .ok tid →
      (demoClient.get_table_r tid = .error .notFound →
          (demoBackend.exists_table "t" "d9").res = .ok false) ∧
      (∀ t, demoClient.get_table_r tid = .ok t →
          (demoBackend.exists_table "t" "d9").res = .ok true) ∧
      (∀ m, demoClient.get_table_r tid = .error (.other m) →
          (demoBackend.exists_table "t" "d9").res = .error (.clientError m)) ∧
      (demoClient.get_table_r tid = .error .notFound →
          (demoBackend.get_schema demoExt "t" "d9").res = .error .notFound) ∧
      (∀ m, demoClient.get_table_r tid = .error (.other m) →
          (demoBackend.get_schema demoExt "t" "d9").res = .error (.clientError m))) :=
  exists_checks_swallow_only_notfound demoBackend demoClient demoExt "d9" "t" "d9" rfl
